import Mathlib

/-!
A shallow embedding of the guc-tuning repository (`src/main.py`), which tunes
PostgreSQL settings by repeatedly provisioning an ephemeral Neon project,
applying a candidate configuration, running `pgbench --initialize`, parsing
its timing report, and feeding the total time to a Bayesian optimizer.

Pure pieces of the program (the regex-based output parser, the option
partition, the role-selection logic of `create_project`) are translated
directly as Lean functions.  The effectful trial function `pgbench` is
modelled as a function of an `Env` describing the outcomes of its external
interactions (HTTP responses, subprocess successes, captured stderr text);
it returns the Python-level outcome (normal return or uncaught exception)
together with a trace of the resource-management events it performs.
-/

set_option autoImplicit false
set_option maxRecDepth 20000

namespace GucTuning

/-- The Python exceptions the program can raise, as a plain datatype.
`provisionError` and `teardownError` are the `RuntimeError`s raised by
`create_project` / `delete_project` (carrying `response.text` as diagnostic);
`configError` / `benchError` are the `subprocess` failures (nonzero exit or
timeout) of the `psql` and `pgbench` invocations; `parseError` is the
`RuntimeError` raised by `parse_pgbench_initialize_output` after printing the
raw output (the payload records that printed text); `unpackError` is the
`ValueError` from destructuring the filtered match groups into six names;
`keyError` would be a missing dict key; `indexError` is an out-of-range
list index (`[-1]` on an empty list, `[0]` on an empty comprehension). -/
inductive PyExc where
  | provisionError (text : String)
  | teardownError (text : String)
  | configError
  | benchError
  | parseError (raw : String)
  | unpackError
  | keyError
  | indexError
  deriving DecidableEq, Repr

/-- Python `str.splitlines` restricted to the newline character:
splits on each `\n` and drops a final empty segment produced by a trailing
newline, so `"".splitlines = []`, `"a\n".splitlines = ["a"]`,
`"a\n\nb".splitlines = ["a", "", "b"]`. (Python also splits on `\r` and
other Unicode line boundaries; none of the inputs in question contain
those, so only `\n` is modelled.) -/
def splitlines : List Char → List (List Char)
  | [] => []
  | c :: rest =>
    if c = '\n' then
      [] :: splitlines rest
    else
      match splitlines rest with
      | [] => [[c]]
      | l :: ls => (c :: l) :: ls

/-- Match a literal string at the head of the input, returning the rest. -/
def lit : List Char → List Char → Option (List Char)
  | [], cs => some cs
  | _ :: _, [] => none
  | l :: ls, c :: cs => if c = l then lit ls cs else none

/-- Match the regex fragment matching a decimal number (one or more digits,
a dot, one or more digits), returning the captured text and the rest.
Greedy digit runs followed by a non-digit are deterministic, so no
backtracking is needed to be faithful to the Python regex engine. -/
def parseDec (cs : List Char) : Option (List Char × List Char) :=
  let d1 := cs.takeWhile Char.isDigit
  let r1 := cs.dropWhile Char.isDigit
  if d1.isEmpty then none
  else
    match r1 with
    | '.' :: r2 =>
      let d2 := r2.takeWhile Char.isDigit
      let r3 := r2.dropWhile Char.isDigit
      if d2.isEmpty then none else some (d1 ++ '.' :: d2, r3)
    | _ => none

/-- One optional sub-phase group of the regex: a label, a captured
decimal, and a trailing space-`s`, the whole group optional.  If any part
fails the group matches empty and the position is unchanged, exactly as the
regex's optional non-capturing group behaves (no later alternative can start
with the same characters, so greedy commitment is faithful). -/
def optClause (label : String) (cs : List Char) : Option (List Char) × List Char :=
  match lit label.data cs with
  | none => (none, cs)
  | some r1 =>
    match parseDec r1 with
    | none => (none, cs)
    | some (v, r2) =>
      match lit [' ', 's'] r2 with
      | none => (none, cs)
      | some r3 => (some v, r3)

/-- The optional separator of the regex between sub-phase groups. -/
def optComma (cs : List Char) : List Char :=
  match lit [',', ' '] cs with
  | some r => r
  | none => cs

/-- The six capture groups of the timing regex in
`parse_pgbench_initialize_output`: the mandatory total and the five
optional sub-phase durations, each raw captured text. -/
structure Groups where
  total : List Char
  drop_tables : Option (List Char)
  create_tables : Option (List Char)
  server_side_generate : Option (List Char)
  vacuum : Option (List Char)
  primary_keys : Option (List Char)
  deriving DecidableEq, Repr

/-- The `re.match` of the timing regex against a line: anchored at the start
only, so it succeeds whenever a PREFIX of the line matches, returning the
capture groups and the unconsumed suffix. -/
def regexMatch (cs : List Char) : Option (Groups × List Char) :=
  match lit "done in ".data cs with
  | none => none
  | some r1 =>
    match parseDec r1 with
    | none => none
    | some (tot, r2) =>
      match lit " s (".data r2 with
      | none => none
      | some r3 =>
        let p1 := optClause "drop tables " r3
        let r4 := optComma p1.2
        let p2 := optClause "create tables " r4
        let r5 := optComma p2.2
        let p3 := optClause "server-side generate " r5
        let r6 := optComma p3.2
        let p4 := optClause "vacuum " r6
        let r7 := optComma p4.2
        let p5 := optClause "primary keys " r7
        let r8 := optComma p5.2
        match lit ").".data r8 with
        | none => none
        | some rest => some (⟨tot, p1.1, p2.1, p3.1, p4.1, p5.1⟩, rest)

/-- Numeric value of a digit string. -/
def digitsVal (cs : List Char) : Nat :=
  cs.foldl (fun a c => 10 * a + (c.toNat - 48)) 0

/-- Python `float` applied to a captured decimal of the shape
`digits.digits`, modelled exactly as a rational: the integer part plus the
fractional digits over the matching power of ten.  (Python floats are
binary doubles; every value the claims compare against is exactly
representable, so the rational model agrees with the float one on all
inputs used here.) -/
def pyFloat (cs : List Char) : Rat :=
  let d1 := cs.takeWhile Char.isDigit
  let r1 := cs.dropWhile Char.isDigit
  match r1 with
  | '.' :: d2 => mkRat (digitsVal d1 * 10 ^ d2.length + digitsVal d2) (10 ^ d2.length)
  | _ => 0

/-- The value of `m.groups()`: the six capture groups in order. -/
def mGroups (g : Groups) : List (Option (List Char)) :=
  [some g.total, g.drop_tables, g.create_tables, g.server_side_generate,
   g.vacuum, g.primary_keys]

/-- Lines 82-101 of `main.py` after a successful match: the comprehension
keeps the non-`None` groups, converts each to a float, destructures the
resulting list into exactly six names (a `ValueError` when there are
fewer), then builds the result dict. -/
def unpack_groups (g : Groups) : Except PyExc (List (String × Rat)) :=
  match ((mGroups g).filterMap id).map pyFloat with
  | [total, drop_tables, create_tables, server_side_generate, vacuum, primary_keys] =>
    .ok [("total", total), ("drop_tables", drop_tables),
         ("create_tables", create_tables),
         ("server_side_generate", server_side_generate),
         ("vacuum", vacuum), ("primary_keys", primary_keys)]
  | _ => .error .unpackError

/-- Function `parse_pgbench_initialize_output` from `main.py`: take the last line of
the output (`IndexError` when there is none), `re.match` it against the
timing regex (on failure, print the raw output and raise `RuntimeError`),
then filter, float and destructure the capture groups into the result dict. -/
def parse_pgbench_initialize_output (output : String) : Except PyExc (List (String × Rat)) :=
  match (splitlines output.data).getLast? with
  | none => .error .indexError
  | some last_line =>
    match regexMatch last_line with
    | none => .error (.parseError output)
    | some (m, _) => unpack_groups m

/-- Modelled from the spec: a line conforms to the fixed grammar of section
4.4 when the ENTIRE line is generated by it, i.e. when the timing pattern
consumes the whole line with nothing left over (the code's `re.match`, in
contrast, only requires a matching prefix). -/
def conformsToGrammar (cs : List Char) : Bool :=
  match regexMatch cs with
  | some (_, rest) => rest.isEmpty
  | none => false

/-- An HTTP response as the program observes it: `response.ok` and
`response.text`.  The JSON payloads are modelled separately per endpoint. -/
structure HttpResp where
  ok : Bool
  text : String
  deriving DecidableEq, Repr

/-- One entry of the `roles` array in the project-creation response. -/
structure Role where
  name : String
  dsn : String
  deriving DecidableEq, Repr

/-- The JSON payload of a successful project-creation response, restricted
to the fields the program reads. -/
structure ProjectJson where
  id : String
  roles : List Role
  deriving DecidableEq, Repr

/-- Function `create_project` from `main.py`: POST the settings to the projects
endpoint (the response and its payload are inputs of the model); raise
`RuntimeError` when the response is not ok; otherwise return the project id
together with the first element of the comprehension that appends `/main`
to the DSN of every role whose name is not `web_access` (`[0]` on an empty
comprehension is an `IndexError`).  The `settings` argument only feeds the
request body and the error message, so it does not affect the outcome. -/
def create_project (settings : List (String × String)) (resp : HttpResp)
    (proj : ProjectJson) : Except PyExc (String × String) :=
  let _ := settings
  if resp.ok then
    match ((proj.roles.filter fun role => role.name != "web_access").map
        fun role => role.dsn ++ "/main").head? with
    | some dsn => .ok (proj.id, dsn)
    | none => .error .indexError
  else
    .error (.provisionError resp.text)

/-- Function `delete_project` from `main.py`: POST to the delete endpoint and raise
`RuntimeError` when the response is not ok.  (The returned JSON body is
unused by the caller and modelled as `Unit`.) -/
def delete_project (project_id : String) (resp : HttpResp) : Except PyExc Unit :=
  let _ := project_id
  if resp.ok then .ok () else .error (.teardownError resp.text)

/-- The wall-clock bound of `main.py`, also used as the penalty score. -/
def TIMEOUT : Rat := 200

/-- The partition loop at the top of `pgbench` (lines 110-117): each option
is routed to `server_settings` when its name is in
`ALLOWED_SERVER_SETTINGS` and to `client_settings` otherwise.  The
membership test is a parameter because `ALLOWED_SERVER_SETTINGS` lives in
`space.py`, outside the sources; option values are modelled after the
`str(value)` conversion. -/
def split_options (allowed : String → Bool) :
    List (String × String) → List (String × String) × List (String × String)
  | [] => ([], [])
  | (name, value) :: rest =>
    let p := split_options allowed rest
    if allowed name then ((name, value) :: p.1, p.2) else (p.1, (name, value) :: p.2)

/-- The `ALTER DATABASE` statement string built from the client settings. -/
def set_command (client_settings : List (String × String)) : String :=
  client_settings.foldl
    (fun acc kv => acc ++ "ALTER DATABASE main SET " ++ kv.1 ++ "=" ++ kv.2 ++ ";") ""

/-- The outcomes of the external interactions of one `pgbench` trial:
the HTTP response (and payload) of the project-creation call, whether the
`psql` and `pgbench` subprocesses succeed (exit 0 within the timeout),
the text the benchmark leaves in `stderr.txt`, and the HTTP response of
the delete call. -/
structure Env where
  createResp : HttpResp
  createJson : ProjectJson
  psqlOk : Bool
  benchOk : Bool
  benchStderr : String
  deleteResp : HttpResp
  deriving DecidableEq, Repr

/-- Ghost trace of the resource-management actions a trial performs:
a successful provision, the (single) call to `delete_project`, and each
`unlink` of a temporary file. -/
inductive Event where
  | provisionOk (project_id : String)
  | destroyCall (project_id : String)
  | unlink (file : String)
  deriving DecidableEq, Repr

/-- The Python-level result of one `pgbench` call: either a normal return
of a score or an uncaught exception, together with the event trace. -/
structure RunResult where
  outcome : Except PyExc Rat
  events : List Event
  deriving Repr

/-- The objective function `pgbench` from `main.py` (lines 108-157).
Control flow as in the source: the options are partitioned;
`create_project` runs BEFORE the `try` block, so its exception propagates
with no cleanup; inside the `try`, `psql` applies the client settings,
`pgbench --initialize` runs, and the captured stderr is parsed, the total
being the score; `except Exception` converts any of those failures into a
`TIMEOUT` return; the `finally` block first calls `delete_project` — if
that raises, the `RuntimeError` replaces the pending return and the two
`unlink` calls are skipped — and otherwise unlinks `stderr.txt` and
`stdout.txt`. -/
def pgbench (allowed : String → Bool) (options : List (String × String))
    (env : Env) : RunResult :=
  let server_settings := (split_options allowed options).1
  let client_settings := (split_options allowed options).2
  let _ := set_command client_settings
  match create_project server_settings env.createResp env.createJson with
  | .error e => { outcome := .error e, events := [] }
  | .ok (project_id, _dsn) =>
    let tryResult : Except PyExc Rat :=
      if env.psqlOk = false then .error .configError
      else if env.benchOk = false then .error .benchError
      else
        match parse_pgbench_initialize_output env.benchStderr with
        | .error e => .error e
        | .ok timings =>
          match timings.lookup "total" with
          | some v => .ok v
          | none => .error .keyError
    let returned : Rat :=
      match tryResult with
      | .ok v => v
      | .error _ => TIMEOUT
    match delete_project project_id env.deleteResp with
    | .error e =>
      { outcome := .error e,
        events := [.provisionOk project_id, .destroyCall project_id] }
    | .ok _ =>
      { outcome := .ok returned,
        events := [.provisionOk project_id, .destroyCall project_id,
                   .unlink "stderr.txt", .unlink "stdout.txt"] }

/-- Event trace of a whole sequence of trials, each with its own option
vector and environment, run back to back. -/
def runTrials (allowed : String → Bool) :
    List (List (String × String) × Env) → List Event
  | [] => []
  | t :: ts => (pgbench allowed t.1 t.2).events ++ runTrials allowed ts

/-- Recognizes `destroyCall` events. -/
def isDestroy : Event → Bool
  | .destroyCall _ => true
  | _ => false

/-- Recognizes `provisionOk` events. -/
def isProvision : Event → Bool
  | .provisionOk _ => true
  | _ => false

/-- Recognizes `unlink` events. -/
def isUnlink : Event → Bool
  | .unlink _ => true
  | _ => false

/-- Number of `delete_project` calls in a trace. -/
def destroys (es : List Event) : Nat := es.countP isDestroy

/-- Number of successful provisions in a trace. -/
def provisions (es : List Event) : Nat := es.countP isProvision

/-- A sample membership test standing in for `ALLOWED_SERVER_SETTINGS`. -/
def allowedW : String → Bool := fun name => name == "shared_buffers"

/-- A benchmark stderr capture whose last line reports all five sub-phases. -/
def fullOut : String :=
  "creating tables...\ndone in 10.00 s (drop tables 1.00 s, create tables 2.00 s, server-side generate 3.00 s, vacuum 4.00 s, primary keys 5.00 s)."

/-- A creation payload with a `web_access` role before the owner role. -/
def projGood : ProjectJson :=
  { id := "p1"
    roles := [{ name := "web_access", dsn := "postgres://wa" },
              { name := "owner", dsn := "postgres://x" }] }

/-- An environment in which every external step succeeds. -/
def envGood : Env :=
  { createResp := { ok := true, text := "created" }
    createJson := projGood
    psqlOk := true
    benchOk := true
    benchStderr := fullOut
    deleteResp := { ok := true, text := "deleted" } }

/-- An environment in which project creation is refused. -/
def envProvFail : Env :=
  { envGood with createResp := { ok := false, text := "boom" } }

/-- An environment in which everything succeeds except the delete call. -/
def envDelFail : Env :=
  { envGood with deleteResp := { ok := false, text := "cannot delete" } }

/-- The dict produced by parsing `fullOut`. -/
def fullParsed : List (String × Rat) :=
  [("total", 10), ("drop_tables", 1), ("create_tables", 2),
   ("server_side_generate", 3), ("vacuum", 4), ("primary_keys", 5)]

/-- A sample option vector with one server-side and one client-side entry. -/
def optsW : List (String × String) := [("shared_buffers", "1GB"), ("jit", "off")]

/-! ### Helper lemmas -/

theorem head?_filter_eq_find? {α : Type} (p : α → Bool) (l : List α) :
    (l.filter p).head? = l.find? p := by
  induction l with
  | nil => rfl
  | cons a l ih => cases h : p a <;> simp [List.filter_cons, List.find?_cons, h, ih]

theorem find?_eq_some_pred {α : Type} (p : α → Bool) (l : List α) (a : α)
    (h : l.find? p = some a) : p a = true := by
  induction l with
  | nil => cases h
  | cons b l ih =>
    rw [List.find?_cons] at h
    split at h
    next hb => cases h; exact hb
    next => exact ih h

theorem splitlines_ne_nil (c : Char) (cs : List Char) : splitlines (c :: cs) ≠ [] := by
  unfold splitlines
  split
  · simp
  · split <;> simp

theorem unpack_groups_ne_indexError (g : Groups) :
    unpack_groups g ≠ .error .indexError := by
  unfold unpack_groups
  split <;> simp

/-- Characterization of a successful unpack: it succeeds exactly when all
five optional groups were captured, and then produces the six-key dict of
the floats of the captures. -/
theorem unpack_groups_ok_iff (g : Groups) (m : List (String × Rat)) :
    unpack_groups g = .ok m ↔
      ∃ dt ct sg va pk,
        g.drop_tables = some dt ∧ g.create_tables = some ct ∧
        g.server_side_generate = some sg ∧ g.vacuum = some va ∧
        g.primary_keys = some pk ∧
        m = [("total", pyFloat g.total), ("drop_tables", pyFloat dt),
             ("create_tables", pyFloat ct), ("server_side_generate", pyFloat sg),
             ("vacuum", pyFloat va), ("primary_keys", pyFloat pk)] := by
  obtain ⟨t, o1, o2, o3, o4, o5⟩ := g
  cases o1 <;> cases o2 <;> cases o3 <;> cases o4 <;> cases o5 <;>
    simp [unpack_groups, mGroups, eq_comm]

/-- Shape of every successful parse: the last line exists, the regex
matched a prefix of it with all five optional groups captured, and the
result is the six-entry dict of the floats of the captures. -/
theorem parse_ok_shape (output : String) (m : List (String × Rat))
    (h : parse_pgbench_initialize_output output = .ok m) :
    ∃ l g rest dt ct sg va pk,
      (splitlines output.data).getLast? = some l ∧
      regexMatch l = some (g, rest) ∧
      g.drop_tables = some dt ∧ g.create_tables = some ct ∧
      g.server_side_generate = some sg ∧ g.vacuum = some va ∧
      g.primary_keys = some pk ∧
      m = [("total", pyFloat g.total), ("drop_tables", pyFloat dt),
           ("create_tables", pyFloat ct), ("server_side_generate", pyFloat sg),
           ("vacuum", pyFloat va), ("primary_keys", pyFloat pk)] := by
  unfold parse_pgbench_initialize_output at h
  split at h
  · exact absurd h (by simp)
  next l hl =>
    split at h
    · exact absurd h (by simp)
    next g rest hm =>
      obtain ⟨dt, ct, sg, va, pk, h1, h2, h3, h4, h5, hmEq⟩ :=
        (unpack_groups_ok_iff g m).1 h
      exact ⟨l, g, rest, dt, ct, sg, va, pk, hl, hm, h1, h2, h3, h4, h5, hmEq⟩

/-! ### Claim C2 -/

/-- Claim C2 (counterexample): parsing the input whose last line is
`done in 12.50 s (drop tables 1.00 s, create tables 2.00 s, vacuum 3.00 s).`
does NOT succeed: destructuring the four non-absent captures into six
names raises a `ValueError`, so the parser raises instead of returning the
partial timing dict the claim describes. -/
theorem parse_subset_line_not_ok :
    parse_pgbench_initialize_output
      "done in 12.50 s (drop tables 1.00 s, create tables 2.00 s, vacuum 3.00 s)." =
    .error .unpackError := by rfl

/-- Claim C2 (amended): the REGEX of the parser does tolerate the
contiguous subset — it matches the line and captures total 12.50,
drop_tables 1.00, create_tables 2.00 and vacuum 3.00 with
server_side_generate and primary_keys absent — but the six-way unpack then
fails, so the parse as a whole raises a `ValueError` rather than yielding
missing values for the absent sub-phases. -/
theorem parse_subset_line_amended :
    regexMatch
        "done in 12.50 s (drop tables 1.00 s, create tables 2.00 s, vacuum 3.00 s).".data =
      some ({ total := "12.50".data
              drop_tables := some "1.00".data
              create_tables := some "2.00".data
              server_side_generate := none
              vacuum := some "3.00".data
              primary_keys := none }, []) ∧
    pyFloat "12.50".data = mkRat 25 2 ∧
    pyFloat "1.00".data = 1 ∧ pyFloat "2.00".data = 2 ∧ pyFloat "3.00".data = 3 ∧
    parse_pgbench_initialize_output
      "done in 12.50 s (drop tables 1.00 s, create tables 2.00 s, vacuum 3.00 s)." =
    .error .unpackError :=
  ⟨by rfl, by decide, by decide, by decide, by decide, by rfl⟩

/-! ### Claim C4 -/

/-- Claim C4 (counterexample): a last line that extends a fully conforming
report with trailing garbage does not conform to the grammar, yet the
parser ACCEPTS it, because `re.match` only anchors at the start of the
line.  So not every non-conforming last line is rejected. -/
theorem parse_accepts_nonconforming_line :
    conformsToGrammar
        "done in 10.00 s (drop tables 1.00 s, create tables 2.00 s, server-side generate 3.00 s, vacuum 4.00 s, primary keys 5.00 s). trailing garbage".data
      = false ∧
    parse_pgbench_initialize_output
        "done in 10.00 s (drop tables 1.00 s, create tables 2.00 s, server-side generate 3.00 s, vacuum 4.00 s, primary keys 5.00 s). trailing garbage"
      = .ok fullParsed :=
  ⟨by rfl, by rfl⟩

/-- Claim C4 (amended): whenever the last line of the input fails to match
the timing pattern even as a prefix, the parser fails with the
`RuntimeError` that stands for `ParseError`, preserving the raw output for
diagnostics (the claim's concrete input `something went wrong` is such a
line); but a last line whose conforming prefix is followed by trailing
text is accepted rather than rejected, so the rejection guarantee only
covers lines with no matching prefix. -/
theorem parse_error_on_unmatched_last_line (output : String) (l : List Char)
    (hl : (splitlines output.data).getLast? = some l)
    (hm : regexMatch l = none) :
    parse_pgbench_initialize_output output = .error (.parseError output) := by
  unfold parse_pgbench_initialize_output
  simp only [hl, hm]

/-- Witness for C4's amended theorem at the concrete rejected input. -/
theorem parse_error_on_unmatched_last_line_witness :
    parse_pgbench_initialize_output "something went wrong" =
      .error (.parseError "something went wrong") :=
  parse_error_on_unmatched_last_line "something went wrong"
    "something went wrong".data (by rfl) (by rfl)

/-! ### Claim C9 -/

/-- Claim C9: whenever the parser returns normally the returned dict has
exactly the six keys total, drop_tables, create_tables,
server_side_generate, vacuum, primary_keys, each bound to the parsed
decimal of its capture; and it returns normally only when the matched last
line captured the total and all five sub-phase timings. -/
theorem parse_ok_exact_six_keys (output : String) (m : List (String × Rat))
    (h : parse_pgbench_initialize_output output = .ok m) :
    m.map Prod.fst = ["total", "drop_tables", "create_tables",
      "server_side_generate", "vacuum", "primary_keys"] ∧
    ∃ l g rest dt ct sg va pk,
      (splitlines output.data).getLast? = some l ∧
      regexMatch l = some (g, rest) ∧
      g.drop_tables = some dt ∧ g.create_tables = some ct ∧
      g.server_side_generate = some sg ∧ g.vacuum = some va ∧
      g.primary_keys = some pk ∧
      m = [("total", pyFloat g.total), ("drop_tables", pyFloat dt),
           ("create_tables", pyFloat ct), ("server_side_generate", pyFloat sg),
           ("vacuum", pyFloat va), ("primary_keys", pyFloat pk)] := by
  obtain ⟨l, g, rest, dt, ct, sg, va, pk, hl, hm, h1, h2, h3, h4, h5, hmEq⟩ :=
    parse_ok_shape output m h
  subst hmEq
  exact ⟨by rfl, l, g, rest, dt, ct, sg, va, pk, hl, hm, h1, h2, h3, h4, h5, rfl⟩

/-- Witness for C9 at a full five-phase report. -/
theorem parse_ok_exact_six_keys_witness :
    fullParsed.map Prod.fst = ["total", "drop_tables", "create_tables",
      "server_side_generate", "vacuum", "primary_keys"] ∧
    ∃ l g rest dt ct sg va pk,
      (splitlines fullOut.data).getLast? = some l ∧
      regexMatch l = some (g, rest) ∧
      g.drop_tables = some dt ∧ g.create_tables = some ct ∧
      g.server_side_generate = some sg ∧ g.vacuum = some va ∧
      g.primary_keys = some pk ∧
      fullParsed = [("total", pyFloat g.total), ("drop_tables", pyFloat dt),
           ("create_tables", pyFloat ct), ("server_side_generate", pyFloat sg),
           ("vacuum", pyFloat va), ("primary_keys", pyFloat pk)] :=
  parse_ok_exact_six_keys fullOut fullParsed (by rfl)

/-! ### Claim C10 -/

/-- Claim C10: on the empty input the parser fails with the `IndexError`
of selecting `splitlines()[-1]` from an empty list, not with the grammar
`ParseError`; and that out-of-range failure happens exactly for the empty
input, i.e. last-line selection succeeds for every input with at least one
line. -/
theorem parse_empty_input_indexError :
    parse_pgbench_initialize_output "" = .error .indexError ∧
    ∀ s : String, parse_pgbench_initialize_output s = .error .indexError ↔ s = "" := by
  refine ⟨by rfl, fun s => ⟨fun h => ?_, fun h => by subst h; rfl⟩⟩
  obtain ⟨cs⟩ := s
  cases cs with
  | nil => rfl
  | cons c cs =>
    exfalso
    unfold parse_pgbench_initialize_output at h
    split at h
    next hl =>
      exact splitlines_ne_nil c cs (List.getLast?_eq_none_iff.mp hl)
    next l hl =>
      split at h
      · exact absurd h (by simp)
      next g rest hm =>
        exact unpack_groups_ne_indexError g h

/-! ### Claim C7 -/

theorem split_options_eq_filter (allowed : String → Bool)
    (options : List (String × String)) :
    (split_options allowed options).1 = options.filter (fun nv => allowed nv.1) ∧
    (split_options allowed options).2 = options.filter (fun nv => !allowed nv.1) := by
  induction options with
  | nil => exact ⟨rfl, rfl⟩
  | cons nv rest ih =>
    obtain ⟨n, v⟩ := nv
    cases h : allowed n <;>
      simp [split_options, List.filter_cons, h, ih.1, ih.2]

/-- Claim C7: the partition of trial-point options is total and exclusive:
every option is in the server-side list or the client-side list, never in
both, with membership in the server-side list exactly when the name passes
the allowed-server-settings test. -/
theorem split_options_total_and_exclusive
    (allowed : String → Bool) (options : List (String × String))
    (name value : String) :
    ((name, value) ∈ options ↔
      ((name, value) ∈ (split_options allowed options).1 ∨
       (name, value) ∈ (split_options allowed options).2)) ∧
    ¬((name, value) ∈ (split_options allowed options).1 ∧
      (name, value) ∈ (split_options allowed options).2) ∧
    ((name, value) ∈ (split_options allowed options).1 → allowed name = true) ∧
    ((name, value) ∈ (split_options allowed options).2 → allowed name = false) := by
  obtain ⟨h1, h2⟩ := split_options_eq_filter allowed options
  rw [h1, h2]
  simp only [List.mem_filter]
  cases h : allowed name <;> simp [h]

/-- Witness for C7 at a concrete option vector. -/
theorem split_options_total_and_exclusive_witness :
    (("shared_buffers", "1GB") ∈ optsW ↔
      (("shared_buffers", "1GB") ∈ (split_options allowedW optsW).1 ∨
       ("shared_buffers", "1GB") ∈ (split_options allowedW optsW).2)) ∧
    ¬(("shared_buffers", "1GB") ∈ (split_options allowedW optsW).1 ∧
      ("shared_buffers", "1GB") ∈ (split_options allowedW optsW).2) ∧
    (("shared_buffers", "1GB") ∈ (split_options allowedW optsW).1 →
      allowedW "shared_buffers" = true) ∧
    (("shared_buffers", "1GB") ∈ (split_options allowedW optsW).2 →
      allowedW "shared_buffers" = false) :=
  split_options_total_and_exclusive allowedW optsW "shared_buffers" "1GB"

/-! ### Claim C8 -/

/-- Claim C8: when `create_project` succeeds, it returns the project id
together with the DSN of the FIRST role whose name is not `web_access`,
with `/main` appended; that role's name is therefore never `web_access`. -/
theorem create_project_first_non_web_access_dsn
    (settings : List (String × String)) (resp : HttpResp) (proj : ProjectJson)
    (pid dsn : String)
    (h : create_project settings resp proj = .ok (pid, dsn)) :
    pid = proj.id ∧
    ∃ role, proj.roles.find? (fun r => r.name != "web_access") = some role ∧
      role.name ≠ "web_access" ∧ dsn = role.dsn ++ "/main" := by
  unfold create_project at h
  split at h
  · split at h
    next d hd =>
      simp only [Except.ok.injEq, Prod.mk.injEq] at h
      obtain ⟨hpid, hdsn⟩ := h
      rw [List.head?_map, head?_filter_eq_find?] at hd
      obtain ⟨role, hrole, hfd⟩ := Option.map_eq_some'.mp hd
      refine ⟨hpid.symm, role, hrole, ?_, ?_⟩
      · exact bne_iff_ne.mp
          (find?_eq_some_pred (fun r => r.name != "web_access") proj.roles role hrole)
      · rw [← hdsn, ← hfd]
    next hd => exact absurd h (by simp)
  · exact absurd h (by simp)

/-- Witness for C8: with a `web_access` role listed first, the second
role's DSN is selected. -/
theorem create_project_first_non_web_access_dsn_witness :
    "p1" = projGood.id ∧
    ∃ role, projGood.roles.find? (fun r => r.name != "web_access") = some role ∧
      role.name ≠ "web_access" ∧ "postgres://x/main" = role.dsn ++ "/main" :=
  create_project_first_non_web_access_dsn [] { ok := true, text := "created" }
    projGood "p1" "postgres://x/main" (by rfl)

/-! ### Claim C1 -/

/-- Claim C1 (counterexample): for a simulated provisioning failure the
adapter does NOT return the penalty — `create_project` runs before the
`try` block, so its `RuntimeError` propagates out of `pgbench` (and no
events happen at all). -/
theorem pgbench_raises_on_provision_failure :
    pgbench allowedW [] envProvFail =
      { outcome := .error (.provisionError "boom"), events := [] } := by rfl

/-- Claim C1 (amended): the adapter is total only past provisioning:
when provisioning and teardown both succeed, `pgbench` returns normally,
with the fixed penalty `TIMEOUT = 200` whenever configuration, benchmark
execution or parsing failed, and with the parsed total elapsed time
otherwise; a provisioning failure instead propagates as an exception (as
does a teardown failure). -/
theorem pgbench_returns_when_provision_and_teardown_succeed
    (allowed : String → Bool) (options : List (String × String)) (env : Env)
    (pid dsn : String)
    (hprov : create_project (split_options allowed options).1 env.createResp
        env.createJson = .ok (pid, dsn))
    (hdel : env.deleteResp.ok = true) :
    ∃ v : Rat, (pgbench allowed options env).outcome = .ok v ∧
      ((env.psqlOk = false ∨ env.benchOk = false ∨
        (∃ e, parse_pgbench_initialize_output env.benchStderr = .error e)) →
        v = TIMEOUT) ∧
      (∀ m, env.psqlOk = true → env.benchOk = true →
        parse_pgbench_initialize_output env.benchStderr = .ok m →
        m.lookup "total" = some v) := by
  simp only [pgbench, hprov]
  simp only [delete_project, hdel, if_true]
  cases hpsql : env.psqlOk with
  | false =>
    exact ⟨TIMEOUT, by simp, fun _ => rfl, fun m hps => by cases hps⟩
  | true =>
    cases hbench : env.benchOk with
    | false =>
      exact ⟨TIMEOUT, by simp, fun _ => rfl, fun m _ hb => by cases hb⟩
    | true =>
      cases hparse : parse_pgbench_initialize_output env.benchStderr with
      | error e =>
        exact ⟨TIMEOUT, by simp, fun _ => rfl, fun m _ _ hm => absurd hm (by simp)⟩
      | ok m0 =>
        obtain ⟨l, g, rest, dt, ct, sg, va, pk, hl, hmm, h1, h2, h3, h4, h5, hmEq⟩ :=
          parse_ok_shape env.benchStderr m0 hparse
        refine ⟨pyFloat g.total, ?_, ?_, ?_⟩
        · simp [hmEq, List.lookup]
        · rintro (hps | hb | ⟨e, he⟩)
          · cases hps
          · cases hb
          · exact absurd he (by simp)
        · intro m _ _ hm
          obtain rfl : m0 = m := by injection hm
          simp [hmEq, List.lookup]

/-- Witness for C1's amended theorem in a fully successful environment. -/
theorem pgbench_returns_when_provision_and_teardown_succeed_witness :
    ∃ v : Rat, (pgbench allowedW [] envGood).outcome = .ok v ∧
      ((envGood.psqlOk = false ∨ envGood.benchOk = false ∨
        (∃ e, parse_pgbench_initialize_output envGood.benchStderr = .error e)) →
        v = TIMEOUT) ∧
      (∀ m, envGood.psqlOk = true → envGood.benchOk = true →
        parse_pgbench_initialize_output envGood.benchStderr = .ok m →
        m.lookup "total" = some v) :=
  pgbench_returns_when_provision_and_teardown_succeed allowedW [] envGood
    "p1" "postgres://x/main" (by rfl) (by rfl)

/-! ### Claim C3 -/

theorem destroys_eq_provisions_single (allowed : String → Bool)
    (options : List (String × String)) (env : Env) :
    destroys (pgbench allowed options env).events =
      provisions (pgbench allowed options env).events := by
  simp only [pgbench]
  cases hc : create_project (split_options allowed options).1 env.createResp
      env.createJson with
  | error e => simp [destroys, provisions]
  | ok p =>
    obtain ⟨pid, d⟩ := p
    cases hdo : env.deleteResp.ok <;>
      simp [delete_project, hdo, destroys, provisions, isDestroy, isProvision]

/-- Claim C3: whenever provisioning succeeds, `delete_project` is called
exactly once on the provisioned project, whatever the later steps do; and
across any sequence of trials the number of destroy calls equals the
number of successful provisions. -/
theorem pgbench_destroy_once_per_provision :
    (∀ (allowed : String → Bool) (options : List (String × String)) (env : Env)
        (pid dsn : String),
      create_project (split_options allowed options).1 env.createResp env.createJson
          = .ok (pid, dsn) →
      (pgbench allowed options env).events.count (Event.destroyCall pid) = 1) ∧
    (∀ (allowed : String → Bool) (trials : List (List (String × String) × Env)),
      destroys (runTrials allowed trials) = provisions (runTrials allowed trials)) := by
  constructor
  · intro allowed options env pid dsn hprov
    simp only [pgbench, hprov]
    cases hdo : env.deleteResp.ok <;>
      simp [delete_project, hdo, List.count_cons, List.count_nil, beq_iff_eq]
  · intro allowed trials
    induction trials with
    | nil => rfl
    | cons t ts ih =>
      have hsingle := destroys_eq_provisions_single allowed t.1 t.2
      simp only [runTrials, destroys, provisions, List.countP_append] at *
      omega

/-- Witness for C3's per-trial part in a fully successful environment. -/
theorem pgbench_destroy_once_per_provision_witness :
    (pgbench allowedW [] envGood).events.count (Event.destroyCall "p1") = 1 :=
  pgbench_destroy_once_per_provision.1 allowedW [] envGood "p1"
    "postgres://x/main" (by rfl)

/-! ### Claim C5 -/

/-- Claim C5 (counterexample): when the delete call fails after an
otherwise fully successful trial, `pgbench` does NOT return its trial
result — the `RuntimeError` raised inside the `finally` block replaces the
pending return and propagates to the caller. -/
theorem pgbench_teardown_failure_aborts :
    pgbench allowedW [] envDelFail =
      { outcome := .error (.teardownError "cannot delete"),
        events := [.provisionOk "p1", .destroyCall "p1"] } := by rfl

/-- Claim C5 (amended): a teardown failure propagates out of the adapter:
whenever provisioning succeeded and the delete response is not ok, the
outcome of `pgbench` is the uncaught teardown `RuntimeError` (carrying the
response text), not a trial result. -/
theorem pgbench_teardown_failure_propagates
    (allowed : String → Bool) (options : List (String × String)) (env : Env)
    (pid dsn : String)
    (hprov : create_project (split_options allowed options).1 env.createResp
        env.createJson = .ok (pid, dsn))
    (hdel : env.deleteResp.ok = false) :
    (pgbench allowed options env).outcome =
      .error (.teardownError env.deleteResp.text) := by
  simp only [pgbench, hprov]
  simp [delete_project, hdel]

/-- Witness for C5's amended theorem at the concrete failing delete. -/
theorem pgbench_teardown_failure_propagates_witness :
    (pgbench allowedW [] envDelFail).outcome =
      .error (.teardownError envDelFail.deleteResp.text) :=
  pgbench_teardown_failure_propagates allowedW [] envDelFail "p1"
    "postgres://x/main" (by rfl) (by rfl)

/-! ### Claim C6 -/

/-- Claim C6 (counterexample): on the teardown-failure exit path the
temporary files are NOT deleted — the exception raised by `delete_project`
aborts the `finally` block before the `unlink` calls run, so the trace
contains no unlink event at all. -/
theorem pgbench_no_unlink_on_teardown_failure :
    envDelFail.deleteResp.ok = false ∧
    (pgbench allowedW [] envDelFail).events.countP isUnlink = 0 :=
  ⟨by rfl, by rfl⟩

/-- Claim C6 (amended): after a successful provision, the two temporary
files are each unlinked exactly once on every exit path on which
`delete_project` succeeds; when `delete_project` raises, the unlink calls
are skipped entirely. -/
theorem pgbench_unlink_once_unless_teardown_raises
    (allowed : String → Bool) (options : List (String × String)) (env : Env)
    (pid dsn : String)
    (hprov : create_project (split_options allowed options).1 env.createResp
        env.createJson = .ok (pid, dsn)) :
    (env.deleteResp.ok = true →
      (pgbench allowed options env).events.count (Event.unlink "stderr.txt") = 1 ∧
      (pgbench allowed options env).events.count (Event.unlink "stdout.txt") = 1) ∧
    (env.deleteResp.ok = false →
      (pgbench allowed options env).events.countP isUnlink = 0) := by
  simp only [pgbench, hprov]
  constructor <;> intro hdo <;>
    simp [delete_project, hdo, List.count_cons, List.count_nil, isUnlink, beq_iff_eq]

/-- Witness for C6's amended theorem in a fully successful environment. -/
theorem pgbench_unlink_once_unless_teardown_raises_witness :
    (pgbench allowedW [] envGood).events.count (Event.unlink "stderr.txt") = 1 ∧
    (pgbench allowedW [] envGood).events.count (Event.unlink "stdout.txt") = 1 :=
  (pgbench_unlink_once_unless_teardown_raises allowedW [] envGood "p1"
    "postgres://x/main" (by rfl)).1 (by rfl)

end GucTuning
